import Mathlib

/-!
Verification of the real-time DEX arbitrage observer
(`services/engine/arb_loop.py`, `services/engine/pricing.py`,
`services/engine/gas.py`, `services/ingestors/zeroex.py`,
`services/ingestors/aerodrome_router.py`, `services/alerts/email.py`).

Modelling conventions:
* Python `Decimal` values (context precision 60, far above every quantity the
  engine manipulates) are modelled as exact rationals `ℚ`.
* Integer base-unit ("wei") amounts are `ℤ`; adapter `buy_amount` values are
  `ℕ` (on-chain `uint256` results and aggregator amounts are non-negative,
  spec §3 invariant (a)).
* A raised Python exception is `Except.error ()`; `None` is `Option.none`.
* The in-memory cooldown dict `_LAST_ALert`-style registry is an association
  list; a dict store is modelled by prepending (lookup sees the newest entry).
* `time.time()` instants are rationals supplied as parameters.
-/

namespace ArbBot

/-! ## FixedPoint: services/engine/pricing.py and services/engine/gas.py -/

/-- Truncation of a rational toward zero, the meaning of Python
`Decimal.to_integral_value(rounding=ROUND_DOWN)`. -/
def truncQ (q : ℚ) : ℤ := if 0 ≤ q then ⌊q⌋ else ⌈q⌉

/-- `pricing.to_wei`: token units -> integer base units, rounding down
(toward zero), `int((amt * scale).to_integral_value(rounding=ROUND_DOWN))`. -/
def to_wei (amount : ℚ) (decimals : ℕ) : ℤ := truncQ (amount * 10 ^ decimals)

/-- `pricing.from_wei`: integer base units -> token units, exact. -/
def from_wei (amount_wei : ℤ) (decimals : ℕ) : ℚ := (amount_wei : ℚ) / 10 ^ decimals

/-- `gas.wei_to_eth`: wei -> ETH, `Decimal(int(wei)) / 10**18`. -/
def wei_to_eth (wei : ℤ) : ℚ := (wei : ℚ) / 10 ^ 18

/-- Spec-side comparator for claim C4, following the spec's words: `truncate`
drops the digits of `m·10⁻ᵏ` beyond the `d`-th decimal place (truncating the
mantissa toward zero). -/
def truncate_spec (m : ℤ) (k d : ℕ) : ℚ :=
  if k ≤ d then (m : ℚ) / 10 ^ k else ((m.tdiv (10 ^ (k - d))) : ℚ) / 10 ^ d

/-! ## Data model -/

/-- An adapter quote as the scanner consumes it: the dict returned through
`_try_leg`.  `gas`/`gas_price` are `Option` because the Aerodrome router's
dict carries no such keys while the 0x dict always does
(`dict.get(key, default)` distinguishes presence). -/
structure Quote where
  buy_amount : ℕ
  gas : Option ℕ
  gas_price : Option ℕ
  protocol : String
deriving DecidableEq, Repr

/-- Environment-derived configuration of `arb_loop.py` (module constants
`DEF_MEV_BPS`, `MIN_PROFIT_USD`, `MIN_ROI_BPS`, `ETH_USD`,
`ALERT_COOLDOWN_S`). -/
structure Config where
  mev_bps : ℚ
  min_profit_usd : ℚ
  min_roi_bps : ℚ
  eth_usd : ℚ
  cooldown_s : ℤ
deriving DecidableEq, Repr

/-- `USD_PER_BASE = Decimal("1.0")`. -/
def USD_PER_BASE : ℚ := 1

/-! ## ProfitModel: the local computations of `evaluate_and_alert`
(arb_loop.py lines 71-91), one definition per source line. -/

/-- Line 74: `profit_wei = out_back_wei - sell_amount_wei`. -/
def profitWei (base_decimals : ℕ) (size_units : ℚ) (qb : Quote) : ℤ :=
  (qb.buy_amount : ℤ) - to_wei size_units base_decimals

/-- Line 75: `profit_base = from_wei(profit_wei, base_decimals)`. -/
def profitBase (base_decimals : ℕ) (size_units : ℚ) (qb : Quote) : ℚ :=
  from_wei (profitWei base_decimals size_units qb) base_decimals

/-- Line 78: `gas_units = int(qa.get("gas", 250_000)) + int(qb.get("gas", 250_000))`. -/
def gasUnits (qa qb : Quote) : ℕ :=
  qa.gas.getD 250000 + qb.gas.getD 250000

/-- Line 79: `gas_price_wei = int(qa.get("gas_price", 0) or qb.get("gas_price", 0) or 0)`.
Python `or` coalesces on falsiness: a present value `0` in `qa` falls
through to `qb`. -/
def gasPriceWei (qa qb : Quote) : ℕ :=
  if qa.gas_price.getD 0 ≠ 0 then qa.gas_price.getD 0 else qb.gas_price.getD 0

/-- Line 80: `gas_eth = wei_to_eth(gas_units * gas_price_wei) if gas_price_wei else Decimal(0)`. -/
def gasEth (qa qb : Quote) : ℚ :=
  if gasPriceWei qa qb ≠ 0 then wei_to_eth ((gasUnits qa qb : ℤ) * (gasPriceWei qa qb : ℤ)) else 0

/-- Line 81: `gas_usd = gas_eth * ETH_USD if ETH_USD > 0 else Decimal(0)`. -/
def gasUsd (cfg : Config) (qa qb : Quote) : ℚ :=
  if 0 < cfg.eth_usd then gasEth qa qb * cfg.eth_usd else 0

/-- Line 84: `gross_bps = (profit_base / size_units) * 10_000 if size_units > 0 else 0`. -/
def grossBps (base_decimals : ℕ) (size_units : ℚ) (qb : Quote) : ℚ :=
  if 0 < size_units then profitBase base_decimals size_units qb / size_units * 10000 else 0

/-- Line 85: `mev_cut = size_units * (DEF_MEV_BPS / 10_000)`. -/
def mevCut (cfg : Config) (size_units : ℚ) : ℚ :=
  size_units * (cfg.mev_bps / 10000)

/-- Line 86: `net_base_mev = profit_base - mev_cut`. -/
def netBaseMev (cfg : Config) (base_decimals : ℕ) (size_units : ℚ) (qb : Quote) : ℚ :=
  profitBase base_decimals size_units qb - mevCut cfg size_units

/-- Line 87: `roi_mev_bps = (net_base_mev / size_units) * 10_000 if size_units > 0 else 0`. -/
def roiMevBps (cfg : Config) (base_decimals : ℕ) (size_units : ℚ) (qb : Quote) : ℚ :=
  if 0 < size_units then netBaseMev cfg base_decimals size_units qb / size_units * 10000 else 0

/-- Line 90: `net_usd = (net_base_mev * USD_PER_BASE) - gas_usd`. -/
def netUsd (cfg : Config) (base_decimals : ℕ) (size_units : ℚ) (qa qb : Quote) : ℚ :=
  netBaseMev cfg base_decimals size_units qb * USD_PER_BASE - gasUsd cfg qa qb

/-- Line 91: `roi_net_bps = (net_usd / (size_units * USD_PER_BASE)) * 10_000 if size_units > 0 else 0`. -/
def roiNetBps (cfg : Config) (base_decimals : ℕ) (size_units : ℚ) (qa qb : Quote) : ℚ :=
  if 0 < size_units then
    netUsd cfg base_decimals size_units qa qb / (size_units * USD_PER_BASE) * 10000
  else 0

/-! ## Cooldown registry and publication -/

/-- The cooldown key of `_alert_key`: the code serialises
`f"{pair}|{size}|{leg_a}->{leg_b}"`; we keep the components, on which the
string is injective. -/
structure RouteKey where
  pair : String
  size : ℚ
  leg_a : String
  leg_b : String
deriving DecidableEq, Repr

def alert_key (base_sym quote_sym : String) (size : ℚ) (leg_a leg_b : String) : RouteKey :=
  ⟨base_sym ++ "/" ++ quote_sym, size, leg_a, leg_b⟩

/-- `_LAST_ALERT.get(key, 0)`. -/
def lookupD (l : List (RouteKey × ℚ)) (k : RouteKey) : ℚ :=
  (List.lookup k l).getD 0

/-- A staged opportunity record (`opps_out.append({...})`, lines 116-134). -/
structure Opp where
  pair : String
  size : ℚ
  chain_id : ℤ
  gross_base : ℚ
  gross_bps : ℚ
  net_usd : ℚ
  gas_usd : ℚ
  leg_a : String
  leg_b : String
  qa : Quote
  qb : Quote
  roi_mev_bps : ℚ
  roi_net_bps : ℚ
deriving DecidableEq, Repr

/-- The record `evaluate_and_alert` appends for a published route. -/
def mkOpp (cfg : Config) (chain_id : ℤ) (base_sym quote_sym : String)
    (base_decimals : ℕ) (size_units : ℚ) (qa qb : Quote) (leg_a leg_b : String) : Opp :=
  { pair := base_sym ++ "/" ++ quote_sym
    size := size_units
    chain_id := chain_id
    gross_base := profitBase base_decimals size_units qb
    gross_bps := grossBps base_decimals size_units qb
    net_usd := netUsd cfg base_decimals size_units qa qb
    gas_usd := gasUsd cfg qa qb
    leg_a := leg_a
    leg_b := leg_b
    qa := qa
    qb := qb
    roi_mev_bps := roiMevBps cfg base_decimals size_units qb
    roi_net_bps := roiNetBps cfg base_decimals size_units qa qb }

/-- The mutable state `evaluate_and_alert` touches: the module-level
`_LAST_ALERT` registry and the caller's `opps_out` list. -/
structure EvalState where
  lastAlert : List (RouteKey × ℚ)
  opps : List Opp
deriving DecidableEq, Repr

/-- `evaluate_and_alert` (arb_loop.py lines 53-134).  `alertFails` says
whether the `await email_alert.send(...)` call raises; the send is NOT
wrapped in try/except, so a raise propagates (`Except.error`) before
`opps_out.append` runs.  Returns the new state and the record published by
this call, if any. -/
def evaluate_and_alert (cfg : Config) (alertFails : Bool) (now : ℚ) (chain_id : ℤ)
    (base_sym quote_sym : String) (base_decimals : ℕ) (size_units : ℚ)
    (qa qb : Quote) (leg_a leg_b : String) (st : EvalState) :
    Except Unit (EvalState × Option Opp) :=
  -- line 94: threshold gate
  if netUsd cfg base_decimals size_units qa qb < cfg.min_profit_usd ∨
     roiNetBps cfg base_decimals size_units qa qb < cfg.min_roi_bps then
    .ok (st, none)
  else
    -- lines 98-102: duplicate-alert cooldown
    let key := alert_key base_sym quote_sym size_units leg_a leg_b
    if now - lookupD st.lastAlert key < (cfg.cooldown_s : ℚ) then
      .ok (st, none)
    else
      let st1 : EvalState := { st with lastAlert := (key, now) :: st.lastAlert }
      -- line 114: await email_alert.send(...)  (unprotected)
      if alertFails then
        .error ()
      else
        let o := mkOpp cfg chain_id base_sym quote_sym base_decimals size_units qa qb leg_a leg_b
        .ok ({ st1 with opps := st1.opps ++ [o] }, some o)

/-! ## AggregatorAdapter: services/ingestors/zeroex.py -/

/-- The JSON body of a 0x `/swap/v1/quote` response, restricted to the fields
`ZeroEx.quote` consumes; `none` models an absent key (`q.get(key, default)`). -/
structure ZeroExBody where
  buyAmount : Option ℕ
  gas : Option ℕ
  gasPrice : Option ℕ
deriving DecidableEq, Repr

/-- What the HTTP layer hands `ZeroEx.quote`: either the `httpx` call raised
(timeout, connection error), or a response arrived with a status code and a
body that either parses as JSON (`some`) or makes `r.json()` raise (`none`). -/
inductive ZeroExResp where
  | transport_error
  | resp (status : ℕ) (body : Option ZeroExBody)
deriving DecidableEq, Repr

/-- `ZeroEx.quote` (zeroex.py lines 28-57).  There is no try/except in the
method: a transport or JSON-parse error raises out of it.  A non-200 status
returns `None`.  A parsed body is returned as a quote dict whatever its
`buyAmount`, with the defaults `buyAmount 0`, `gas 250000`, `gasPrice 0`. -/
def ZeroEx_quote : ZeroExResp → Except Unit (Option Quote)
  | .transport_error => .error ()
  | .resp status body =>
    if status ≠ 200 then .ok none
    else
      match body with
      | none => .error ()
      | some b =>
        .ok (some { buy_amount := b.buyAmount.getD 0
                    gas := some (b.gas.getD 250000)
                    gas_price := some (b.gasPrice.getD 0)
                    protocol := "0x" })

/-- `_try_leg` (arb_loop.py lines 41-50): the scanner-side wrapper that
converts any exception raised by a provider's `quote` into `None`. -/
def try_leg (r : Except Unit (Option Quote)) : Option Quote :=
  match r with
  | .error _ => none
  | .ok v => v

/-! ## RouterAdapter: services/ingestors/aerodrome_router.py -/

/-- The quote dict built by `AerodromeRouter.quote` (no gas keys). -/
structure RQuote where
  buy_amount : ℕ
  protocol : String
  stable : Bool
deriving DecidableEq, Repr

/-- `f"Aerodrome_V1_{'4f' if use_factory else '3f'}"`. -/
def routerTag (use_factory : Bool) : String :=
  if use_factory then "Aerodrome_V1_4f" else "Aerodrome_V1_3f"

/-- The attempt order of `AerodromeRouter.quote` (lines 68-76): the 4-field
ABI variant then the 3-field one, and inside each the requested stable flag
then its negation.  Each element is `(use_factory, stable)`. -/
def routerAttempts (stable : Bool) : List (Bool × Bool) :=
  [(true, stable), (true, !stable), (false, stable), (false, !stable)]

/-- The attempt loop body (lines 74-86): `oracle f s` is the outcome of the
`getAmountsOut` eth_call for that variant and flag (`none` = the call
raised).  A returned array is used only when it has at least two entries
(`if amounts and len(amounts) >= 2`); `buy_amount` is its last element. -/
def routerGo (oracle : Bool → Bool → Option (List ℕ)) :
    List (Bool × Bool) → Option RQuote
  | [] => none
  | (f, s) :: rest =>
    match oracle f s with
    | some l =>
      if 2 ≤ l.length then some ⟨l.getLastD 0, routerTag f, s⟩ else routerGo oracle rest
    | none => routerGo oracle rest

/-- `AerodromeRouter.quote` (lines 62-87). -/
def AerodromeRouter_quote (oracle : Bool → Bool → Option (List ℕ)) (stable : Bool) :
    Option RQuote :=
  routerGo oracle (routerAttempts stable)

/-- Spec-side comparator for claim C6, written directly from the spec's
negotiation steps (§4.4): for each variant 4-field then 3-field, for each
stable flag requested then negated, on success return the last element of
the amounts array tagged with the variant; if every attempt fails, `None`. -/
def routerQuote_spec (oracle : Bool → Bool → Option (List ℕ)) (stable : Bool) :
    Option RQuote :=
  match oracle true stable with
  | some l => some ⟨l.getLastD 0, routerTag true, stable⟩
  | none =>
    match oracle true (!stable) with
    | some l => some ⟨l.getLastD 0, routerTag true, !stable⟩
    | none =>
      match oracle false stable with
      | some l => some ⟨l.getLastD 0, routerTag false, stable⟩
      | none =>
        match oracle false (!stable) with
        | some l => some ⟨l.getLastD 0, routerTag false, !stable⟩
        | none => none

/-! ## Scanner: `scan_once` (arb_loop.py lines 137-257) -/

/-- A configured token (`tokens[sym]` entries of the YAML config). -/
structure Token where
  address : String
  decimals : ℕ
deriving DecidableEq, Repr

/-- Observable events of one scan, recorded in program order: each leg-B
provider invocation (with the sell amount it was fed, which is always the
leg-A `buy_amount`), and each call of `evaluate_and_alert`. -/
inductive Ev where
  | legB (amount : ℕ)
  | evalRoute (qa qb : Quote)
deriving DecidableEq, Repr

/-- The outcome of a (possibly aborted) scan: the event trace up to the point
reached, and either the final state (whose `opps` list is what the Postgres
sink persists at lines 230-257) or the pending exception. -/
structure ScanRes where
  trace : List Ev
  out : Except Unit EvalState
deriving Repr

/-- Everything `scan_once` closes over: configuration, the pinned 0x
providers (as an oracle from source tag and request to the `_try_leg`-
normalised result), the Aerodrome router oracle, the token table, and the
configured lists.  `alertFails` tells whether the email send raises. -/
structure ScanCtx where
  cfg : Config
  alertFails : Bool
  now : ℚ
  chain_id : ℤ
  oxO : String → String → String → ℤ → Option Quote
  aeroO : String → String → ℤ → Option Quote
  tokens : String → Token
  sources : List String
  pairs : List (String × String)
  sizes : List ℚ

/-- `itertools.product(source_list, source_list)` in its enumeration order. -/
def listProd (l₁ l₂ : List String) : List (String × String) :=
  l₁.flatMap (fun a => l₂.map (fun b => (a, b)))

/-- Run `evaluate_and_alert` from a scan step: an exception aborts the scan
(the remaining iterations are skipped and the staged `opps` are lost). -/
def runEval (ctx : ScanCtx) (base_sym quote_sym : String) (base_dec : ℕ)
    (size : ℚ) (qa qb : Quote) (leg_a leg_b : String)
    (tr : List Ev) (st : EvalState) : ScanRes :=
  match evaluate_and_alert ctx.cfg ctx.alertFails ctx.now ctx.chain_id
      base_sym quote_sym base_dec size qa qb leg_a leg_b st with
  | .error e => ⟨tr, .error e⟩
  | .ok (st2, _) => ⟨tr, .ok st2⟩

/-- Route family (1), lines 163-185: one ordered source pair `(src_a, src_b)`. -/
def step1 (ctx : ScanCtx) (base quote : Token) (base_sym quote_sym : String)
    (size : ℚ) (sell_wei : ℤ) (acc : ScanRes) (p : String × String) : ScanRes :=
  match acc.out with
  | .error _ => acc
  | .ok st =>
    if p.1 = p.2 then acc
    else
      match ctx.oxO p.1 base.address quote.address sell_wei with
      | none => acc
      | some qa =>
        if qa.buy_amount = 0 then acc
        else
          let tr := acc.trace ++ [.legB qa.buy_amount]
          match ctx.oxO p.2 quote.address base.address (qa.buy_amount : ℤ) with
          | none => ⟨tr, acc.out⟩
          | some qb =>
            if qb.buy_amount = 0 then ⟨tr, acc.out⟩
            else
              runEval ctx base_sym quote_sym base.decimals size qa qb p.1 p.2
                (tr ++ [.evalRoute qa qb]) st

/-- Route family (2), lines 187-207: 0x leg A, Aerodrome leg B. -/
def step2 (ctx : ScanCtx) (base quote : Token) (base_sym quote_sym : String)
    (size : ℚ) (sell_wei : ℤ) (acc : ScanRes) (src_a : String) : ScanRes :=
  match acc.out with
  | .error _ => acc
  | .ok st =>
    match ctx.oxO src_a base.address quote.address sell_wei with
    | none => acc
    | some qa =>
      if qa.buy_amount = 0 then acc
      else
        let tr := acc.trace ++ [.legB qa.buy_amount]
        match ctx.aeroO quote.address base.address (qa.buy_amount : ℤ) with
        | none => ⟨tr, acc.out⟩
        | some qb =>
          if qb.buy_amount = 0 then ⟨tr, acc.out⟩
          else
            runEval ctx base_sym quote_sym base.decimals size qa qb src_a "Aerodrome_V1"
              (tr ++ [.evalRoute qa qb]) st

/-- Route family (3) inner loop, lines 212-228: 0x leg B fed by the single
Aerodrome leg-A quote. -/
def step3 (ctx : ScanCtx) (base quote : Token) (base_sym quote_sym : String)
    (size : ℚ) (qa : Quote) (acc : ScanRes) (src_b : String) : ScanRes :=
  match acc.out with
  | .error _ => acc
  | .ok st =>
    let tr := acc.trace ++ [.legB qa.buy_amount]
    match ctx.oxO src_b quote.address base.address (qa.buy_amount : ℤ) with
    | none => ⟨tr, acc.out⟩
    | some qb =>
      if qb.buy_amount = 0 then ⟨tr, acc.out⟩
      else
        runEval ctx base_sym quote_sym base.decimals size qa qb "Aerodrome_V1" src_b
          (tr ++ [.evalRoute qa qb]) st

/-- Route family (3), lines 209-228: Aerodrome leg A attempted once, guarded
by `if qa and qa["buy_amount"] > 0`. -/
def family3 (ctx : ScanCtx) (base quote : Token) (base_sym quote_sym : String)
    (size : ℚ) (sell_wei : ℤ) (acc : ScanRes) : ScanRes :=
  match acc.out with
  | .error _ => acc
  | .ok _ =>
    match ctx.aeroO base.address quote.address sell_wei with
    | none => acc
    | some qa =>
      if 0 < qa.buy_amount then
        List.foldl (step3 ctx base quote base_sym quote_sym size qa) acc ctx.sources
      else acc

/-- One `(pair, size)` iteration, lines 159-228. -/
def scanSize (ctx : ScanCtx) (base quote : Token) (base_sym quote_sym : String)
    (acc : ScanRes) (size : ℚ) : ScanRes :=
  let sell_wei := to_wei size base.decimals
  let acc1 := List.foldl (step1 ctx base quote base_sym quote_sym size sell_wei) acc
    (listProd ctx.sources ctx.sources)
  let acc2 := List.foldl (step2 ctx base quote base_sym quote_sym size sell_wei) acc1
    ctx.sources
  family3 ctx base quote base_sym quote_sym size sell_wei acc2

/-- One pair iteration, lines 154-228. -/
def scanPair (ctx : ScanCtx) (acc : ScanRes) (pr : String × String) : ScanRes :=
  let base := ctx.tokens pr.1
  let quote := ctx.tokens pr.2
  List.foldl (scanSize ctx base quote pr.1 pr.2) acc ctx.sizes

/-- `scan_once`: the whole scan pass from an empty cooldown registry and an
empty `opps` list.  The sink write (lines 230-257) persists exactly the
`opps` of the `.ok` final state; an `.error` outcome means the raised
exception aborted the scan before the write. -/
def scan_once (ctx : ScanCtx) : ScanRes :=
  List.foldl (scanPair ctx) ⟨[], .ok ⟨[], []⟩⟩ ctx.pairs

/-- The invariant claim C8 asserts of every recorded event. -/
def evPositive : Ev → Prop
  | .legB a => 0 < a
  | .evalRoute qa qb => 0 < qa.buy_amount ∧ 0 < qb.buy_amount

/-! ## Concrete instances used by witnesses and counterexamples -/

/-- The env defaults: `MEV_BUFFER_BPS=5`, `MIN_PROFIT_USD=1`, `MIN_ROI_BPS=5`,
`ETH_USD=0`, `ALERT_COOLDOWN_S=60`. -/
def cfgDef : Config := ⟨5, 1, 5, 0, 60⟩

/-- Defaults with gas pricing enabled (`ETH_USD=2`). -/
def cfgGas : Config := ⟨5, 1, 5, 2, 60⟩

/-- Golden-scenario leg-A quote: 1000 USDC -> 0.3 WETH (= 3·10^8 at 18 dp
scaled down for the example), no gas info. -/
def qaGold : Quote := ⟨300000000, none, none, "0x"⟩

/-- Golden-scenario leg-B quote: back to 1005 USDC (6 dp). -/
def qbGold : Quote := ⟨1005000000, none, none, "0x"⟩

/-- A quote whose `gas_price` key is present with value 0. -/
def qaZeroGp : Quote := ⟨300000000, none, some 0, "0x"⟩

/-- A quote carrying a positive `gas_price` of 10^12 wei. -/
def qbPosGp : Quote := ⟨1005000000, none, some 1000000000000, "0x"⟩

/-- Token table of the witness scan. -/
def tokensW : String → Token :=
  fun s => if s = "USDC" then ⟨"0xA", 6⟩ else ⟨"0xB", 18⟩

/-- 0x oracle of the witness scan: any source quotes `qaGold` when selling
the base token and `qbGold` when selling the quote token back. -/
def oxW : String → String → String → ℤ → Option Quote :=
  fun _ sell _ _ => if sell = "0xA" then some qaGold else some qbGold

/-- A scan context on which the email send raises (`alertFails = true`). -/
def ctxFail : ScanCtx :=
  ⟨cfgDef, true, 100, 8453, oxW, fun _ _ _ => none, tokensW,
    ["S1", "S2"], [("USDC", "WETH")], [1000]⟩

/-- The same scan context with a healthy alerter. -/
def ctxOk : ScanCtx := { ctxFail with alertFails := false }

/-- Router oracle of the C6 witness: the 4-field variant always reverts, the
3-field variant succeeds only for the requested stable flag. -/
def oracleW : Bool → Bool → Option (List ℕ) :=
  fun f s => if f then none else if s then some [7, 9] else none

/-- A one-source scan context whose Aerodrome oracle always fails: the scan
performs a single leg-B call and never reaches the profit model. -/
def ctxTiny : ScanCtx :=
  ⟨cfgDef, false, 100, 8453, oxW, fun _ _ _ => none, tokensW,
    ["S1"], [("USDC", "WETH")], [1000]⟩

/-! ## Helper lemmas -/

lemma truncQ_intCast (z : ℤ) : truncQ (z : ℚ) = z := by
  unfold truncQ
  split_ifs <;> simp

lemma truncQ_div_natCast (m : ℤ) (n : ℕ) : truncQ ((m : ℚ) / (n : ℚ)) = m.tdiv n := by
  rcases Nat.eq_zero_or_pos n with hn | hn
  · subst hn
    simp [truncQ]
  · have hnQ : (0 : ℚ) < (n : ℚ) := by exact_mod_cast hn
    rcases le_or_lt 0 m with hm | hm
    · have h0 : 0 ≤ (m : ℚ) / (n : ℚ) := div_nonneg (by exact_mod_cast hm) hnQ.le
      rw [truncQ, if_pos h0, Rat.floor_intCast_div_natCast]
      exact (Int.tdiv_eq_ediv hm (by positivity)).symm
    · have hq : (m : ℚ) / (n : ℚ) < 0 := div_neg_of_neg_of_pos (by exact_mod_cast hm) hnQ
      rw [truncQ, if_neg (not_le.mpr hq)]
      have hneg : -((m : ℚ) / (n : ℚ)) = ((-m : ℤ) : ℚ) / (n : ℚ) := by
        push_cast
        ring
      have hceil : ⌈(m : ℚ) / (n : ℚ)⌉ = -⌊((-m : ℤ) : ℚ) / (n : ℚ)⌋ := by
        rw [← hneg, Int.floor_neg, neg_neg]
      rw [hceil, Rat.floor_intCast_div_natCast,
        ← Int.tdiv_eq_ediv (by omega) (by positivity), ← Int.neg_tdiv, neg_neg]

lemma gasUsd_indep (cfg : Config) (qa : Quote) (b1 b2 : ℕ) (g gp : Option ℕ) (pr : String) :
    gasUsd cfg qa ⟨b1, g, gp, pr⟩ = gasUsd cfg qa ⟨b2, g, gp, pr⟩ := rfl

/-! ## Claims -/

/-- **C10.** The profit evaluation is total in the trade size: at
`size_units = 0` the ratio metrics `gross_bps`, `roi_mev_bps` and
`roi_net_bps` are defined as 0 by the `if size_units > 0` guards instead of
dividing by zero, so evaluation never fails on a zero size. -/
theorem c10_zero_size_total (cfg : Config) (bd : ℕ) (qa qb : Quote) :
    grossBps bd 0 qb = 0 ∧ roiMevBps cfg bd 0 qb = 0 ∧ roiNetBps cfg bd 0 qa qb = 0 := by
  refine ⟨?_, ?_, ?_⟩ <;> simp [grossBps, roiMevBps, roiNetBps]

/-- **C9.** For a fixed leg-A quote, pair, size, decimals and configuration,
`net_usd` is monotonically increasing in quote B's `buy_amount` (the gas
fields of quote B held fixed). -/
theorem c9_netUsd_monotone (cfg : Config) (bd : ℕ) (size : ℚ) (qa : Quote)
    (b1 b2 : ℕ) (g gp : Option ℕ) (pr : String) (h : b1 ≤ b2) :
    netUsd cfg bd size qa ⟨b1, g, gp, pr⟩ ≤ netUsd cfg bd size qa ⟨b2, g, gp, pr⟩ := by
  have hg := gasUsd_indep cfg qa b1 b2 g gp pr
  have h10 : (0 : ℚ) < 10 ^ bd := by positivity
  have hb : ((b1 : ℕ) : ℚ) ≤ ((b2 : ℕ) : ℚ) := by exact_mod_cast h
  have hmono : (((b1 : ℤ) - to_wei size bd : ℤ) : ℚ) / 10 ^ bd ≤
      (((b2 : ℤ) - to_wei size bd : ℤ) : ℚ) / 10 ^ bd := by
    apply (div_le_div_iff_of_pos_right h10).mpr
    push_cast
    linarith
  simp only [netUsd, netBaseMev, profitBase, profitWei, from_wei] at *
  rw [hg]
  have : (USD_PER_BASE : ℚ) = 1 := rfl
  rw [this]
  simp only [mul_one]
  linarith

/-- **C9 witness.** -/
theorem c9_netUsd_monotone_witness :
    netUsd cfgDef 6 1000 qaGold ⟨5, none, none, "0x"⟩ ≤
      netUsd cfgDef 6 1000 qaGold ⟨7, none, none, "0x"⟩ :=
  c9_netUsd_monotone cfgDef 6 1000 qaGold 5 7 none none "0x" (by decide)

/-- **C7 counterexample.** The claim says `gas_price` coalesces on nulls, so
a present `gas_price = 0` in quote A yields `gas_price 0` (hence
`gas_usd = 0`) even when quote B carries a positive `gas_price`.  The code
uses Python `or`, which coalesces on falsiness: with `qa.gas_price = 0`
present and `qb.gas_price = 10^12`, the computed `gas_usd` is 1, not 0. -/
theorem c7_gas_price_counterexample :
    qaZeroGp.gas_price = some 0 ∧ qbPosGp.gas_price = some 1000000000000 ∧
    gasPriceWei qaZeroGp qbPosGp = 1000000000000 ∧
    gasUsd cfgGas qaZeroGp qbPosGp = 1 ∧ (1 : ℚ) ≠ 0 := by
  refine ⟨rfl, rfl, rfl, ?_, by norm_num⟩
  norm_num [gasUsd, gasEth, gasPriceWei, gasUnits, wei_to_eth, cfgGas, qaZeroGp, qbPosGp]

/-- **C7 (amended).** `gas_units` sums the per-quote `gas` values with 250000
substituted for an absent key; `gas_price` coalesces on falsiness (quote A's
value when it is present and nonzero, else quote B's value-or-0); `gas_eth`
is `gas_units * gas_price / 10^18` when `gas_price ≠ 0` and 0 otherwise;
`gas_usd` is `gas_eth * ETH_USD` when `ETH_USD > 0` and 0 otherwise. -/
theorem c7_gas_model (cfg : Config) (qa qb : Quote) :
    gasUnits qa qb = qa.gas.getD 250000 + qb.gas.getD 250000 ∧
    (qa.gas_price.getD 0 = 0 → gasPriceWei qa qb = qb.gas_price.getD 0) ∧
    (qa.gas_price.getD 0 ≠ 0 → gasPriceWei qa qb = qa.gas_price.getD 0) ∧
    (gasPriceWei qa qb ≠ 0 →
      gasEth qa qb = ((gasUnits qa qb : ℚ) * (gasPriceWei qa qb : ℚ)) / 10 ^ 18) ∧
    (gasPriceWei qa qb = 0 → gasEth qa qb = 0) ∧
    (0 < cfg.eth_usd → gasUsd cfg qa qb = gasEth qa qb * cfg.eth_usd) ∧
    (¬ 0 < cfg.eth_usd → gasUsd cfg qa qb = 0) := by
  refine ⟨rfl, ?_, ?_, ?_, ?_, ?_, ?_⟩
  · intro h
    simp [gasPriceWei, h]
  · intro h
    simp [gasPriceWei, h]
  · intro h
    rw [gasEth, if_pos h, wei_to_eth]
    push_cast
    ring
  · intro h
    rw [gasEth, if_neg (by simp [h])]
  · intro h
    rw [gasUsd, if_pos h]
  · intro h
    rw [gasUsd, if_neg h]

/-- **C7 witness.** -/
theorem c7_gas_model_witness :
    gasPriceWei qaZeroGp qbPosGp = qbPosGp.gas_price.getD 0 ∧
    gasUsd cfgGas qaZeroGp qbPosGp = gasEth qaZeroGp qbPosGp * cfgGas.eth_usd :=
  ⟨(c7_gas_model cfgGas qaZeroGp qbPosGp).2.1 (by decide),
   (c7_gas_model cfgGas qaZeroGp qbPosGp).2.2.2.2.2.1 (by decide)⟩

/-- **C5 counterexample.** The claim says `ZeroEx.quote` returns `None` on
any transport error (no exception propagation) and whenever
`buy_amount <= 0`.  The code has no try/except — a transport error raises —
and a parsed 200-response with `buyAmount = 0` is returned as a quote dict,
not as `None`. -/
theorem c5_zeroex_counterexample :
    ZeroEx_quote (.resp 200 (some ⟨some 0, none, none⟩)) =
      .ok (some ⟨0, some 250000, some 0, "0x"⟩) ∧
    ZeroEx_quote .transport_error = .error () :=
  ⟨rfl, rfl⟩

/-- **C5 (amended).** `ZeroEx.quote` itself returns `None` only on a non-200
HTTP status; transport and JSON-parse errors raise out of the method and are
converted to `None` by the scanner's `_try_leg` wrapper; a parsed 200
response is returned as a quote record even when its `buy_amount` is 0 (the
scanner filters those, cf. C8). -/
theorem c5_zeroex_contract (status : ℕ) (body : Option ZeroExBody) :
    try_leg (ZeroEx_quote .transport_error) = none ∧
    (status ≠ 200 → ZeroEx_quote (.resp status body) = .ok none) ∧
    ZeroEx_quote (.resp 200 none) = .error () ∧
    try_leg (ZeroEx_quote (.resp 200 none)) = none ∧
    (∀ b, body = some b → status = 200 →
      ZeroEx_quote (.resp status body) =
        .ok (some ⟨b.buyAmount.getD 0, some (b.gas.getD 250000),
          some (b.gasPrice.getD 0), "0x"⟩)) := by
  refine ⟨rfl, ?_, rfl, rfl, ?_⟩
  · intro h
    simp [ZeroEx_quote, h]
  · intro b hb hs
    subst hb
    subst hs
    simp [ZeroEx_quote]

/-- **C5 witness.** -/
theorem c5_zeroex_contract_witness :
    ZeroEx_quote (.resp 404 (some ⟨some 5, none, none⟩)) = .ok none :=
  (c5_zeroex_contract 404 (some ⟨some 5, none, none⟩)).2.1 (by decide)

/-- **C4.** For every amount and decimals `d ≤ 30`: `to_wei` multiplies by
`10^d` and truncates toward zero (floor on non-negative inputs, ceiling on
non-positive ones); `from_wei` is exact (`to_wei` recovers any integer it is
applied to); and the round trip `from_wei (to_wei a d) d` drops the digits
of `a = m·10⁻ᵏ` beyond the `d`-th decimal place. -/
theorem c4_fixed_point_roundtrip (a : ℚ) (w m : ℤ) (k d : ℕ) (_hd : d ≤ 30) :
    (0 ≤ a → to_wei a d = ⌊a * 10 ^ d⌋) ∧
    (a ≤ 0 → to_wei a d = ⌈a * 10 ^ d⌉) ∧
    to_wei (from_wei w d) d = w ∧
    from_wei (to_wei ((m : ℚ) / 10 ^ k) d) d = truncate_spec m k d := by
  have hp : ((10 : ℚ)) ^ d ≠ 0 := by positivity
  refine ⟨?_, ?_, ?_, ?_⟩
  · intro ha
    rw [to_wei, truncQ, if_pos (mul_nonneg ha (by positivity))]
  · intro ha
    rw [to_wei, truncQ]
    split_ifs with h
    · have hle : a * 10 ^ d ≤ 0 := by
        have h10 : (0 : ℚ) ≤ 10 ^ d := by positivity
        nlinarith
      have h0 : a * 10 ^ d = 0 := le_antisymm hle h
      rw [h0]
      simp
    · rfl
  · rw [to_wei, from_wei, div_mul_cancel₀ _ hp, truncQ_intCast]
  · rcases le_or_lt k d with hkd | hdk
    · have hsplit : (10 : ℚ) ^ d = 10 ^ k * 10 ^ (d - k) := by
        rw [← pow_add, Nat.add_sub_cancel' hkd]
      have hcast : (m : ℚ) / 10 ^ k * 10 ^ d = ((m * 10 ^ (d - k) : ℤ) : ℚ) := by
        push_cast
        rw [hsplit]
        have hk : ((10 : ℚ)) ^ k ≠ 0 := by positivity
        field_simp
        ring
      rw [to_wei, hcast, truncQ_intCast, truncate_spec, if_pos hkd, from_wei]
      push_cast
      rw [hsplit]
      have hk : ((10 : ℚ)) ^ k ≠ 0 := by positivity
      have hdk2 : ((10 : ℚ)) ^ (d - k) ≠ 0 := by positivity
      field_simp
      ring
    · have hsplit : (10 : ℚ) ^ k = 10 ^ (k - d) * 10 ^ d := by
        rw [← pow_add, Nat.sub_add_cancel hdk.le]
      have hcast : (m : ℚ) / 10 ^ k * 10 ^ d = (m : ℚ) / (((10 : ℕ) ^ (k - d) : ℕ) : ℚ) := by
        push_cast
        rw [hsplit]
        have hkd2 : ((10 : ℚ)) ^ (k - d) ≠ 0 := by positivity
        field_simp
        ring
      rw [to_wei, hcast, truncQ_div_natCast, truncate_spec, if_neg (not_le.mpr hdk), from_wei]
      norm_num

/-- **C4 witness.** -/
theorem c4_fixed_point_roundtrip_witness :
    to_wei (from_wei 5 1) 1 = 5 ∧
    from_wei (to_wei ((355 : ℚ) / 10 ^ 2) 1) 1 = truncate_spec 355 2 1 :=
  ⟨(c4_fixed_point_roundtrip ((355 : ℚ) / 10 ^ 2) 5 355 2 1 (by decide)).2.2.1,
   (c4_fixed_point_roundtrip ((355 : ℚ) / 10 ^ 2) 5 355 2 1 (by decide)).2.2.2⟩

/-- **C2.** A route is published (alert sent and opportunity record staged)
iff both `net_usd ≥ MIN_PROFIT_USD` and `roi_net_bps ≥ MIN_ROI_BPS`:
(i) any publication implies both thresholds; (ii) a route failing either
threshold returns before the alert/record path with the state untouched;
(iii) when both thresholds hold, the send succeeds and the cooldown window
has elapsed, the route is published with the staged record appended. -/
theorem c2_threshold_gate (cfg : Config) (af : Bool) (now : ℚ) (cid : ℤ)
    (bs qs : String) (bd : ℕ) (size : ℚ) (qa qb : Quote) (la lb : String)
    (st : EvalState) :
    (∀ st2 o, evaluate_and_alert cfg af now cid bs qs bd size qa qb la lb st =
        .ok (st2, some o) →
      cfg.min_profit_usd ≤ netUsd cfg bd size qa qb ∧
      cfg.min_roi_bps ≤ roiNetBps cfg bd size qa qb) ∧
    (¬ (cfg.min_profit_usd ≤ netUsd cfg bd size qa qb ∧
        cfg.min_roi_bps ≤ roiNetBps cfg bd size qa qb) →
      evaluate_and_alert cfg af now cid bs qs bd size qa qb la lb st = .ok (st, none)) ∧
    (cfg.min_profit_usd ≤ netUsd cfg bd size qa qb →
     cfg.min_roi_bps ≤ roiNetBps cfg bd size qa qb →
     af = false →
     (cfg.cooldown_s : ℚ) ≤ now - lookupD st.lastAlert (alert_key bs qs size la lb) →
      evaluate_and_alert cfg af now cid bs qs bd size qa qb la lb st =
        .ok (⟨(alert_key bs qs size la lb, now) :: st.lastAlert,
              st.opps ++ [mkOpp cfg cid bs qs bd size qa qb la lb]⟩,
             some (mkOpp cfg cid bs qs bd size qa qb la lb))) := by
  refine ⟨?_, ?_, ?_⟩
  · intro st2 o h
    by_cases hg : netUsd cfg bd size qa qb < cfg.min_profit_usd ∨
        roiNetBps cfg bd size qa qb < cfg.min_roi_bps
    · rw [evaluate_and_alert, if_pos hg] at h
      simp at h
    · push_neg at hg
      exact ⟨hg.1, hg.2⟩
  · intro hng
    rw [evaluate_and_alert, if_pos]
    rcases not_and_or.mp hng with h | h
    · exact .inl (not_le.mp h)
    · exact .inr (not_le.mp h)
  · intro h1 h2 haf hcd
    subst haf
    rw [evaluate_and_alert, if_neg (by push_neg; exact ⟨h1, h2⟩)]
    simp only []
    rw [if_neg (not_lt.mpr hcd)]
    rfl

/-- **C2 witness.** -/
theorem c2_threshold_gate_witness :
    evaluate_and_alert cfgDef false 100 8453 "USDC" "WETH" 6 1000 qaGold qbGold
        "S1" "S2" ⟨[], []⟩ =
      .ok (⟨[(alert_key "USDC" "WETH" 1000 "S1" "S2", 100)],
            [mkOpp cfgDef 8453 "USDC" "WETH" 6 1000 qaGold qbGold "S1" "S2"]⟩,
           some (mkOpp cfgDef 8453 "USDC" "WETH" 6 1000 qaGold qbGold "S1" "S2")) :=
  (c2_threshold_gate cfgDef false 100 8453 "USDC" "WETH" 6 1000 qaGold qbGold
      "S1" "S2" ⟨[], []⟩).2.2
    (by norm_num [netUsd, netBaseMev, profitBase, profitWei, from_wei, to_wei, truncQ,
      gasUsd, mevCut, USD_PER_BASE, cfgDef, qaGold, qbGold])
    (by norm_num [roiNetBps, netUsd, netBaseMev, profitBase, profitWei, from_wei, to_wei,
      truncQ, gasUsd, mevCut, USD_PER_BASE, cfgDef, qaGold, qbGold])
    rfl
    (by norm_num [lookupD, cfgDef])

/-- **C3.** Cooldown semantics of `evaluate_and_alert` for a route whose
thresholds pass: (i) an attempt at `now` with `now − last < ALERT_COOLDOWN_S`
is suppressed, leaving the state untouched; (ii) otherwise the stored
instant is set to `now` and publication proceeds; (iii) of two back-to-back
attempts with the same key inside the window, exactly the first publishes. -/
theorem c3_cooldown (cfg : Config) (af : Bool) (now t1 t2 : ℚ) (cid : ℤ)
    (bs qs : String) (bd : ℕ) (size : ℚ) (qa qb : Quote) (la lb : String)
    (st st0 : EvalState)
    (hgate : cfg.min_profit_usd ≤ netUsd cfg bd size qa qb ∧
             cfg.min_roi_bps ≤ roiNetBps cfg bd size qa qb) :
    (now - lookupD st.lastAlert (alert_key bs qs size la lb) < (cfg.cooldown_s : ℚ) →
      evaluate_and_alert cfg af now cid bs qs bd size qa qb la lb st = .ok (st, none)) ∧
    ((cfg.cooldown_s : ℚ) ≤ now - lookupD st.lastAlert (alert_key bs qs size la lb) →
      evaluate_and_alert cfg false now cid bs qs bd size qa qb la lb st =
        .ok (⟨(alert_key bs qs size la lb, now) :: st.lastAlert,
              st.opps ++ [mkOpp cfg cid bs qs bd size qa qb la lb]⟩,
             some (mkOpp cfg cid bs qs bd size qa qb la lb))) ∧
    ((cfg.cooldown_s : ℚ) ≤ t1 - lookupD st0.lastAlert (alert_key bs qs size la lb) →
     t2 - t1 < (cfg.cooldown_s : ℚ) →
      evaluate_and_alert cfg false t1 cid bs qs bd size qa qb la lb st0 =
        .ok (⟨(alert_key bs qs size la lb, t1) :: st0.lastAlert,
              st0.opps ++ [mkOpp cfg cid bs qs bd size qa qb la lb]⟩,
             some (mkOpp cfg cid bs qs bd size qa qb la lb)) ∧
      evaluate_and_alert cfg false t2 cid bs qs bd size qa qb la lb
          ⟨(alert_key bs qs size la lb, t1) :: st0.lastAlert,
           st0.opps ++ [mkOpp cfg cid bs qs bd size qa qb la lb]⟩ =
        .ok (⟨(alert_key bs qs size la lb, t1) :: st0.lastAlert,
              st0.opps ++ [mkOpp cfg cid bs qs bd size qa qb la lb]⟩, none)) := by
  have hgate2 : ¬ (netUsd cfg bd size qa qb < cfg.min_profit_usd ∨
      roiNetBps cfg bd size qa qb < cfg.min_roi_bps) := by
    push_neg
    exact hgate
  refine ⟨?_, ?_, ?_⟩
  · intro hcd
    rw [evaluate_and_alert, if_neg hgate2]
    simp only []
    rw [if_pos hcd]
  · intro hcd
    rw [evaluate_and_alert, if_neg hgate2]
    simp only []
    rw [if_neg (not_lt.mpr hcd)]
    rfl
  · intro h1 h2
    constructor
    · rw [evaluate_and_alert, if_neg hgate2]
      simp only []
      rw [if_neg (not_lt.mpr h1)]
      rfl
    · rw [evaluate_and_alert, if_neg hgate2]
      simp only []
      rw [if_pos]
      have : lookupD ((alert_key bs qs size la lb, t1) :: st0.lastAlert)
          (alert_key bs qs size la lb) = t1 := by
        simp [lookupD, List.lookup]
      rw [this]
      exact h2

/-- **C3 witness.** -/
theorem c3_cooldown_witness :
    evaluate_and_alert cfgDef false 130 8453 "USDC" "WETH" 6 1000 qaGold qbGold
        "S1" "S2"
        ⟨[(alert_key "USDC" "WETH" 1000 "S1" "S2", 100)],
         [mkOpp cfgDef 8453 "USDC" "WETH" 6 1000 qaGold qbGold "S1" "S2"]⟩ =
      .ok (⟨[(alert_key "USDC" "WETH" 1000 "S1" "S2", 100)],
            [mkOpp cfgDef 8453 "USDC" "WETH" 6 1000 qaGold qbGold "S1" "S2"]⟩, none) :=
  ((c3_cooldown cfgDef false 130 100 130 8453 "USDC" "WETH" 6 1000 qaGold qbGold
      "S1" "S2" ⟨[], []⟩ ⟨[], []⟩
      (by norm_num [netUsd, roiNetBps, netBaseMev, profitBase, profitWei, from_wei,
        to_wei, truncQ, gasUsd, mevCut, USD_PER_BASE, cfgDef, qaGold, qbGold])).2.2
    (by norm_num [lookupD, cfgDef]) (by norm_num [cfgDef])).2

/-- **C6.** Under the `getAmountsOut` contract (a successful call for a
single route returns at least two amounts), `AerodromeRouter.quote` equals
the spec's negotiation: try the 4-field ABI variant then the 3-field one,
within each the requested stable flag then its negation; the first success
yields the last element of the amounts array as `buy_amount`, tagged with
the variant; if every attempt fails the quote is `None` (also stated
separately without the contract hypothesis). -/
theorem c6_router_negotiation (oracle : Bool → Bool → Option (List ℕ)) (stable : Bool)
    (hlen : ∀ f s l, oracle f s = some l → 2 ≤ l.length) :
    AerodromeRouter_quote oracle stable = routerQuote_spec oracle stable ∧
    ((∀ f s, oracle f s = none) → AerodromeRouter_quote oracle stable = none) := by
  constructor
  · unfold AerodromeRouter_quote routerAttempts routerQuote_spec
    rcases h1 : oracle true stable with _ | l1
    · rcases h2 : oracle true (!stable) with _ | l2
      · rcases h3 : oracle false stable with _ | l3
        · rcases h4 : oracle false (!stable) with _ | l4
          · simp [routerGo, h1, h2, h3, h4]
          · simp [routerGo, h1, h2, h3, h4, hlen _ _ _ h4]
        · simp [routerGo, h1, h2, h3, hlen _ _ _ h3]
      · simp [routerGo, h1, h2, hlen _ _ _ h2]
    · simp [routerGo, h1, hlen _ _ _ h1]
  · intro hall
    unfold AerodromeRouter_quote routerAttempts
    simp [routerGo, hall]

/-- **C6 witness.** -/
theorem c6_router_negotiation_witness :
    AerodromeRouter_quote oracleW true = routerQuote_spec oracleW true :=
  (c6_router_negotiation oracleW true (by
    intro f s l hl
    cases f
    · cases s
      · simp [oracleW] at hl
      · simp [oracleW] at hl
        simp [← hl]
    · cases s <;> simp [oracleW] at hl)).1

lemma runEval_trace (ctx : ScanCtx) (bs qs : String) (bd : ℕ) (size : ℚ)
    (qa qb : Quote) (la lb : String) (tr : List Ev) (st : EvalState) :
    (runEval ctx bs qs bd size qa qb la lb tr st).trace = tr := by
  unfold runEval
  generalize evaluate_and_alert ctx.cfg ctx.alertFails ctx.now ctx.chain_id
      bs qs bd size qa qb la lb st = r
  rcases r with e | ⟨st2, o⟩
  · rfl
  · rfl

lemma foldl_trace_pres {β : Type} (P : Ev → Prop) (f : ScanRes → β → ScanRes)
    (hf : ∀ acc b ev, ev ∈ (f acc b).trace → ev ∈ acc.trace ∨ P ev) :
    ∀ (l : List β) (acc : ScanRes) (ev : Ev),
      ev ∈ (List.foldl f acc l).trace → ev ∈ acc.trace ∨ P ev := by
  intro l
  induction l with
  | nil => exact fun acc ev h => .inl h
  | cons b t ih =>
    intro acc ev h
    rcases ih (f acc b) ev h with h2 | h2
    · exact hf acc b ev h2
    · exact .inr h2

lemma step1_pres (ctx : ScanCtx) (base quote : Token) (bs qs : String)
    (size : ℚ) (sw : ℤ) (acc : ScanRes) (p : String × String) (ev : Ev)
    (h : ev ∈ (step1 ctx base quote bs qs size sw acc p).trace) :
    ev ∈ acc.trace ∨ evPositive ev := by
  rcases acc with ⟨tr0, out0⟩
  cases out0 with
  | error e => exact .inl h
  | ok st =>
    by_cases hp : p.1 = p.2
    · rw [show step1 ctx base quote bs qs size sw ⟨tr0, .ok st⟩ p = ⟨tr0, .ok st⟩ from by
        simp [step1, hp]] at h
      exact .inl h
    · rcases hqa : ctx.oxO p.1 base.address quote.address sw with _ | qa
      · rw [show step1 ctx base quote bs qs size sw ⟨tr0, .ok st⟩ p = ⟨tr0, .ok st⟩ from by
          simp [step1, hp, hqa]] at h
        exact .inl h
      · by_cases hz : qa.buy_amount = 0
        · rw [show step1 ctx base quote bs qs size sw ⟨tr0, .ok st⟩ p = ⟨tr0, .ok st⟩ from by
            simp [step1, hp, hqa, hz]] at h
          exact .inl h
        · rcases hqb : ctx.oxO p.2 quote.address base.address (qa.buy_amount : ℤ) with _ | qb
          · rw [show (step1 ctx base quote bs qs size sw ⟨tr0, .ok st⟩ p).trace =
                tr0 ++ [.legB qa.buy_amount] from by simp [step1, hp, hqa, hz, hqb]] at h
            rcases List.mem_append.mp h with h2 | h2
            · exact .inl h2
            · rw [List.mem_singleton.mp h2]
              exact .inr (Nat.pos_of_ne_zero hz)
          · by_cases hzb : qb.buy_amount = 0
            · rw [show (step1 ctx base quote bs qs size sw ⟨tr0, .ok st⟩ p).trace =
                  tr0 ++ [.legB qa.buy_amount] from by
                    simp [step1, hp, hqa, hz, hqb, hzb]] at h
              rcases List.mem_append.mp h with h2 | h2
              · exact .inl h2
              · rw [List.mem_singleton.mp h2]
                exact .inr (Nat.pos_of_ne_zero hz)
            · rw [show (step1 ctx base quote bs qs size sw ⟨tr0, .ok st⟩ p).trace =
                  tr0 ++ [.legB qa.buy_amount] ++ [.evalRoute qa qb] from by
                    simp [step1, hp, hqa, hz, hqb, hzb, runEval_trace]] at h
              rcases List.mem_append.mp h with h2 | h2
              · rcases List.mem_append.mp h2 with h3 | h3
                · exact .inl h3
                · rw [List.mem_singleton.mp h3]
                  exact .inr (Nat.pos_of_ne_zero hz)
              · rw [List.mem_singleton.mp h2]
                exact .inr ⟨Nat.pos_of_ne_zero hz, Nat.pos_of_ne_zero hzb⟩

lemma step2_pres (ctx : ScanCtx) (base quote : Token) (bs qs : String)
    (size : ℚ) (sw : ℤ) (acc : ScanRes) (src : String) (ev : Ev)
    (h : ev ∈ (step2 ctx base quote bs qs size sw acc src).trace) :
    ev ∈ acc.trace ∨ evPositive ev := by
  rcases acc with ⟨tr0, out0⟩
  cases out0 with
  | error e => exact .inl h
  | ok st =>
    rcases hqa : ctx.oxO src base.address quote.address sw with _ | qa
    · rw [show step2 ctx base quote bs qs size sw ⟨tr0, .ok st⟩ src = ⟨tr0, .ok st⟩ from by
        simp [step2, hqa]] at h
      exact .inl h
    · by_cases hz : qa.buy_amount = 0
      · rw [show step2 ctx base quote bs qs size sw ⟨tr0, .ok st⟩ src = ⟨tr0, .ok st⟩ from by
          simp [step2, hqa, hz]] at h
        exact .inl h
      · rcases hqb : ctx.aeroO quote.address base.address (qa.buy_amount : ℤ) with _ | qb
        · rw [show (step2 ctx base quote bs qs size sw ⟨tr0, .ok st⟩ src).trace =
              tr0 ++ [.legB qa.buy_amount] from by simp [step2, hqa, hz, hqb]] at h
          rcases List.mem_append.mp h with h2 | h2
          · exact .inl h2
          · rw [List.mem_singleton.mp h2]
            exact .inr (Nat.pos_of_ne_zero hz)
        · by_cases hzb : qb.buy_amount = 0
          · rw [show (step2 ctx base quote bs qs size sw ⟨tr0, .ok st⟩ src).trace =
                tr0 ++ [.legB qa.buy_amount] from by simp [step2, hqa, hz, hqb, hzb]] at h
            rcases List.mem_append.mp h with h2 | h2
            · exact .inl h2
            · rw [List.mem_singleton.mp h2]
              exact .inr (Nat.pos_of_ne_zero hz)
          · rw [show (step2 ctx base quote bs qs size sw ⟨tr0, .ok st⟩ src).trace =
                tr0 ++ [.legB qa.buy_amount] ++ [.evalRoute qa qb] from by
                  simp [step2, hqa, hz, hqb, hzb, runEval_trace]] at h
            rcases List.mem_append.mp h with h2 | h2
            · rcases List.mem_append.mp h2 with h3 | h3
              · exact .inl h3
              · rw [List.mem_singleton.mp h3]
                exact .inr (Nat.pos_of_ne_zero hz)
            · rw [List.mem_singleton.mp h2]
              exact .inr ⟨Nat.pos_of_ne_zero hz, Nat.pos_of_ne_zero hzb⟩

lemma step3_pres (ctx : ScanCtx) (base quote : Token) (bs qs : String)
    (size : ℚ) (qa : Quote) (hqa : 0 < qa.buy_amount)
    (acc : ScanRes) (src : String) (ev : Ev)
    (h : ev ∈ (step3 ctx base quote bs qs size qa acc src).trace) :
    ev ∈ acc.trace ∨ evPositive ev := by
  rcases acc with ⟨tr0, out0⟩
  cases out0 with
  | error e => exact .inl h
  | ok st =>
    rcases hqb : ctx.oxO src quote.address base.address (qa.buy_amount : ℤ) with _ | qb
    · rw [show (step3 ctx base quote bs qs size qa ⟨tr0, .ok st⟩ src).trace =
          tr0 ++ [.legB qa.buy_amount] from by simp [step3, hqb]] at h
      rcases List.mem_append.mp h with h2 | h2
      · exact .inl h2
      · rw [List.mem_singleton.mp h2]
        exact .inr hqa
    · by_cases hzb : qb.buy_amount = 0
      · rw [show (step3 ctx base quote bs qs size qa ⟨tr0, .ok st⟩ src).trace =
            tr0 ++ [.legB qa.buy_amount] from by simp [step3, hqb, hzb]] at h
        rcases List.mem_append.mp h with h2 | h2
        · exact .inl h2
        · rw [List.mem_singleton.mp h2]
          exact .inr hqa
      · rw [show (step3 ctx base quote bs qs size qa ⟨tr0, .ok st⟩ src).trace =
            tr0 ++ [.legB qa.buy_amount] ++ [.evalRoute qa qb] from by
              simp [step3, hqb, hzb, runEval_trace]] at h
        rcases List.mem_append.mp h with h2 | h2
        · rcases List.mem_append.mp h2 with h3 | h3
          · exact .inl h3
          · rw [List.mem_singleton.mp h3]
            exact .inr hqa
        · rw [List.mem_singleton.mp h2]
          exact .inr ⟨hqa, Nat.pos_of_ne_zero hzb⟩

lemma family3_pres (ctx : ScanCtx) (base quote : Token) (bs qs : String)
    (size : ℚ) (sw : ℤ) (acc : ScanRes) (ev : Ev)
    (h : ev ∈ (family3 ctx base quote bs qs size sw acc).trace) :
    ev ∈ acc.trace ∨ evPositive ev := by
  rcases hout : acc.out with e | st
  · rw [show family3 ctx base quote bs qs size sw acc = acc from by
      simp [family3, hout]] at h
    exact .inl h
  · rcases hqa : ctx.aeroO base.address quote.address sw with _ | qa
    · rw [show family3 ctx base quote bs qs size sw acc = acc from by
        simp [family3, hout, hqa]] at h
      exact .inl h
    · by_cases hz : 0 < qa.buy_amount
      · rw [show family3 ctx base quote bs qs size sw acc =
            List.foldl (step3 ctx base quote bs qs size qa) acc ctx.sources from by
              simp [family3, hout, hqa, hz]] at h
        exact foldl_trace_pres evPositive _
          (fun a b e he => step3_pres ctx base quote bs qs size qa hz a b e he)
          ctx.sources acc ev h
      · rw [show family3 ctx base quote bs qs size sw acc = acc from by
          simp [family3, hout, hqa, hz]] at h
        exact .inl h

lemma scanSize_pres (ctx : ScanCtx) (base quote : Token) (bs qs : String)
    (acc : ScanRes) (size : ℚ) (ev : Ev)
    (h : ev ∈ (scanSize ctx base quote bs qs acc size).trace) :
    ev ∈ acc.trace ∨ evPositive ev := by
  rw [scanSize] at h
  rcases family3_pres ctx base quote bs qs size (to_wei size base.decimals) _ ev h
    with h2 | h2
  · rcases foldl_trace_pres evPositive _
      (step2_pres ctx base quote bs qs size (to_wei size base.decimals)) ctx.sources _ ev h2
      with h3 | h3
    · exact foldl_trace_pres evPositive _
        (step1_pres ctx base quote bs qs size (to_wei size base.decimals))
        (listProd ctx.sources ctx.sources) acc ev h3
    · exact .inr h3
  · exact .inr h2

lemma scanPair_pres (ctx : ScanCtx) (acc : ScanRes) (pr : String × String) (ev : Ev)
    (h : ev ∈ (scanPair ctx acc pr).trace) :
    ev ∈ acc.trace ∨ evPositive ev := by
  rw [scanPair] at h
  exact foldl_trace_pres evPositive _
    (scanSize_pres ctx (ctx.tokens pr.1) (ctx.tokens pr.2) pr.1 pr.2) ctx.sizes acc ev h

/-- **C8.** In every route family of any scan, leg B is invoked only with a
strictly positive input amount (the leg-A `buy_amount` that passed the
short-circuit check), and every route reaching `evaluate_and_alert` carries
quotes with strictly positive `buy_amount` on both legs: no quote with
`buy_amount = 0` is fed forward or evaluated for publication. -/
theorem c8_short_circuit (ctx : ScanCtx) :
    ∀ ev ∈ (scan_once ctx).trace, evPositive ev := by
  intro ev h
  rw [scan_once] at h
  rcases foldl_trace_pres evPositive (scanPair ctx) (scanPair_pres ctx) ctx.pairs
    ⟨[], .ok ⟨[], []⟩⟩ ev h with h2 | h2
  · simp at h2
  · exact h2

/-- **C8 witness.** -/
theorem c8_short_circuit_witness : evPositive (Ev.legB 300000000) :=
  c8_short_circuit ctxTiny (Ev.legB 300000000) (by
    have h : scan_once ctxTiny = ⟨[Ev.legB 300000000], .ok ⟨[], []⟩⟩ := by
      simp [scan_once, scanPair, scanSize, step1, step2, family3, listProd,
        ctxTiny, tokensW, oxW, qaGold]
    rw [h]
    simp)

/-- **C1 (code evaluated at the failing input).** The spec requires that an
alert-delivery failure MUST NOT affect the Sink write or the scan: the
opportunity record should still be appended and persisted and the remaining
routes evaluated.  In the code the `email_alert.send` await inside
`evaluate_and_alert` is not wrapped in try/except, so on a scan holding two
profitable routes whose alert send raises, the first route's exception
aborts `scan_once` after its leg-B call and evaluation: the record is never
appended, the remaining route `("S2", "S1")` and families (2) and (3) are
never evaluated, and no opportunity list reaches the Postgres write. -/
theorem c1_alert_failure_aborts_scan :
    (scan_once ctxFail).trace = [Ev.legB 300000000, Ev.evalRoute qaGold qbGold] ∧
    (scan_once ctxFail).out = .error () := by
  have hnet : netUsd cfgDef 6 1000 qaGold qbGold = 9 / 2 := by
    norm_num [netUsd, netBaseMev, profitBase, profitWei, from_wei, to_wei, truncQ,
      gasUsd, gasEth, gasPriceWei, gasUnits, mevCut, USD_PER_BASE, wei_to_eth,
      cfgDef, qaGold, qbGold]
  have hroi : roiNetBps cfgDef 6 1000 qaGold qbGold = 45 := by
    rw [roiNetBps, if_pos (by norm_num), hnet]
    norm_num [USD_PER_BASE, cfgDef]
  have hgate : ¬ (netUsd cfgDef 6 1000 qaGold qbGold < cfgDef.min_profit_usd ∨
      roiNetBps cfgDef 6 1000 qaGold qbGold < cfgDef.min_roi_bps) := by
    rw [hnet, hroi]
    norm_num [cfgDef]
  have heval : evaluate_and_alert cfgDef true 100 8453 "USDC" "WETH" 6 1000
      qaGold qbGold "S1" "S2" ⟨[], []⟩ = .error () := by
    rw [evaluate_and_alert, if_neg hgate]
    simp only []
    rw [if_neg (by norm_num [lookupD, cfgDef])]
    simp
  have hrun : ∀ tr : List Ev,
      runEval ctxFail "USDC" "WETH" 6 1000 qaGold qbGold "S1" "S2" tr ⟨[], []⟩ =
        ⟨tr, .error ()⟩ := by
    intro tr
    unfold runEval
    rw [show ctxFail.cfg = cfgDef from rfl, show ctxFail.alertFails = true from rfl,
      show ctxFail.now = 100 from rfl, show ctxFail.chain_id = 8453 from rfl, heval]
  have hscan : scan_once ctxFail =
      ⟨[Ev.legB 300000000, Ev.evalRoute qaGold qbGold], .error ()⟩ := by
    simp [scan_once, scanPair, scanSize, step1, step2, family3, listProd,
      tokensW, oxW, hrun,
      show ctxFail.oxO = oxW from rfl,
      show ∀ a b c, ctxFail.aeroO a b c = none from fun _ _ _ => rfl,
      show ctxFail.tokens = tokensW from rfl,
      show ctxFail.sources = ["S1", "S2"] from rfl,
      show ctxFail.pairs = [("USDC", "WETH")] from rfl,
      show ctxFail.sizes = [1000] from rfl,
      show qaGold.buy_amount = 300000000 from rfl,
      show qbGold.buy_amount = 1005000000 from rfl]
  rw [hscan]
  exact ⟨rfl, rfl⟩

end ArbBot
